import Mathlib

/-!
Verification development for the storage engine of `scripts/mo/data/sqlite_storage.py`
(sd-model-organizer).  The SQLite-backed store is shallowly embedded: tables become
lists of rows, each repository method becomes a pure function on an explicit
`DbState`, and Python exceptions become `Option`/`Except` results (a mutating call
that can raise returns the state reached at the point of the raise together with
an optional error message, since every sub-step of the source commits individually).
-/

/-- Model of Python's `str.split(sep)` at the character-list level:
splitting always yields at least one (possibly empty) piece, and a separator
character ends the current piece. -/
def split_chars (sep : Char) : List Char → List (List Char)
  | [] => [[]]
  | c :: cs =>
    match split_chars sep cs with
    | [] => [[]]
    | r :: rs => if c = sep then [] :: r :: rs else (c :: r) :: rs

/-- Model of Python's `sep.join(pieces)` at the character-list level. -/
def join_chars (sep : Char) : List (List Char) → List Char
  | [] => []
  | [l] => l
  | l :: l2 :: ls => l ++ sep :: join_chars sep (l2 :: ls)

/-- Python `s.split(sep)` on strings (total; `"".split(sep) = [""]`). -/
def py_split (sep : Char) (s : String) : List String :=
  (split_chars sep s.data).map String.mk

/-- Python `sep.join(pieces)` on strings. -/
def py_join (sep : Char) (pieces : List String) : String :=
  String.mk (join_chars sep (pieces.map String.data))

/-- Python's `str.lower()`, modelled at the character level (ASCII case mapping;
every tag and query value the claims exercise is ASCII). -/
def py_lower (s : String) : String := String.mk (s.data.map Char.toLower)

/-- Modelled from the spec: the model-category enum `ModelType` lives in
`scripts/mo/models.py`, which is not under `src/`; the spec (§3, §8) describes it
as an enum of category tags such as `"checkpoint"`, with `value` the stored string
and `by_value` the reverse lookup (failing on an unknown string). -/
inductive ModelType where
  | checkpoint
  | vae
  | lora
  | hypernetwork
  | embedding
  | other
deriving DecidableEq

/-- Modelled from the spec: the string stored in the `model_type` column. -/
def ModelType.value : ModelType → String
  | .checkpoint => "checkpoint"
  | .vae => "vae"
  | .lora => "lora"
  | .hypernetwork => "hypernetwork"
  | .embedding => "embedding"
  | .other => "other"

/-- Modelled from the spec: reverse lookup of `ModelType.value`; `none` models the
exception Python raises on an unknown category string. -/
def ModelType.by_value (v : String) : Option ModelType :=
  if v = "checkpoint" then some .checkpoint
  else if v = "vae" then some .vae
  else if v = "lora" then some .lora
  else if v = "hypernetwork" then some .hypernetwork
  else if v = "embedding" then some .embedding
  else if v = "other" then some .other
  else none

/-- The `Record` entity as constructed by `map_row_to_record` (field-for-field the
keyword arguments of the `Record(...)` constructor call in the source; the spec's
§3 attribute list matches).  `weight` (SQL `REAL`) is modelled as a rational since
no claim exercises floating-point behaviour; `created_at` is the integer epoch. -/
structure Record where
  id_ : Nat
  name : String
  model_type : ModelType
  download_url : String
  url : String
  download_path : String
  download_filename : String
  preview_url : String
  description : String
  positive_prompts : String
  negative_prompts : String
  sha256_hash : String
  md5_hash : String
  created_at : Int
  groups : List String
  subdir : String
  location : String
  weight : Rat
  backup_url : String
deriving DecidableEq

/-- One row of the SQL `Record` table, columns in schema order
(`id, name, model_type, ..., weight, backup_url`). -/
structure RecordRow where
  id : Nat
  name : String
  model_type : String
  download_url : String
  url : String
  download_path : String
  download_filename : String
  preview_url : String
  description : String
  positive_prompts : String
  negative_prompts : String
  sha256_hash : String
  md5_hash : String
  created_at : Int
  groups : String
  subdir : String
  location : String
  weight : Rat
  backup_url : String
deriving DecidableEq

/-- A row produced by the read queries `SELECT r.*, GROUP_CONCAT(t.name, ',') AS tags`:
the nineteen `Record` columns (positions 0..18) followed by the trailing aggregated
tags column (position 19, `NULL` i.e. `none` when the record has no tags). -/
structure JoinedRow where
  r : RecordRow
  tags : Option String
deriving DecidableEq

/-- `map_row_to_record` (source lines 18-39): builds a `Record` from positions 0..18
of the row.  `groups` (position 14) is comma-split when truthy.  The trailing
aggregated-tags column (position 19) is never read.  `none` models the exception
raised by `ModelType.by_value` on an unknown model-type string. -/
def map_row_to_record (row : JoinedRow) : Option Record :=
  match ModelType.by_value row.r.model_type with
  | none => none
  | some mt =>
    some
      { id_ := row.r.id
        name := row.r.name
        model_type := mt
        download_url := row.r.download_url
        url := row.r.url
        download_path := row.r.download_path
        download_filename := row.r.download_filename
        preview_url := row.r.preview_url
        description := row.r.description
        positive_prompts := row.r.positive_prompts
        negative_prompts := row.r.negative_prompts
        sha256_hash := row.r.sha256_hash
        md5_hash := row.r.md5_hash
        created_at := row.r.created_at
        groups := if row.r.groups = "" then [] else py_split (Char.ofNat 44) row.r.groups
        subdir := row.r.subdir
        location := row.r.location
        weight := row.r.weight
        backup_url := row.r.backup_url }

/-- The whole database: the three tables (as lists of rows) plus the engine's next
rowids for the two tables with assigned integer primary keys. -/
structure DbState where
  records : List RecordRow
  tags : List (Nat × String)
  tagSet : List (Nat × Nat)
  nextRecordId : Nat
  nextTagId : Nat
deriving DecidableEq

/-- The `GROUP_CONCAT(t.name, ',') AS tags` aggregate for one record: the names of
the tags joined to it through `TagSet`, comma-joined, or `NULL` (`none`) when the
`LEFT JOIN` produces no tag rows. -/
def aggregated_tags (record_id : Nat) (s : DbState) : Option String :=
  let names := (s.tagSet.filter (fun p => p.1 = record_id)).filterMap
    (fun p => (s.tags.find? (fun q => q.1 = p.2)).map (fun q => q.2))
  if names = [] then none else some (py_join (Char.ofNat 44) names)

/-- `get_record_by_id` (source lines 302-313): the joined row for the given id,
mapped to a `Record`.  In the source an id with no matching row makes the
aggregate query return a single all-`NULL` row, on which `map_row_to_record`
then fails; both that failure and the absent row are modelled as `none`. -/
def get_record_by_id (id : Nat) (s : DbState) : Option Record :=
  match s.records.find? (fun row => row.id = id) with
  | none => none
  | some row => map_row_to_record { r := row, tags := aggregated_tags id s }

/-- The row-mapping loop shared by the read operations: maps every joined row,
failing (as the Python loop raises) if any single row fails to map. -/
def map_rows_to_records : List JoinedRow → Option (List Record)
  | [] => some []
  | row :: rest =>
    match map_row_to_record row, map_rows_to_records rest with
    | some r, some rs => some (r :: rs)
    | _, _ => none

/-- `get_all_records` (source lines 216-230): left join + group-by over every
`Record` row (so records with zero tags still yield a row), then the mapping loop. -/
def get_all_records (s : DbState) : Option (List Record) :=
  map_rows_to_records (s.records.map (fun row => { r := row, tags := aggregated_tags row.id s }))

/-- The `INSERT INTO Record(...)` tuple of `add_record`: every `Record` field except
the identifier, with `groups` comma-joined and the model type stored by value. -/
def record_to_row (id : Nat) (r : Record) : RecordRow :=
  { id := id
    name := r.name
    model_type := r.model_type.value
    download_url := r.download_url
    url := r.url
    download_path := r.download_path
    download_filename := r.download_filename
    preview_url := r.preview_url
    description := r.description
    positive_prompts := r.positive_prompts
    negative_prompts := r.negative_prompts
    sha256_hash := r.sha256_hash
    md5_hash := r.md5_hash
    created_at := r.created_at
    groups := py_join (Char.ofNat 44) r.groups
    subdir := r.subdir
    location := r.location
    weight := r.weight
    backup_url := r.backup_url }

/-- `add_record` (source lines 341-385): inserts the row with the engine-assigned
rowid and returns `cursor.lastrowid`. -/
def add_record (r : Record) (s : DbState) : Nat × DbState :=
  let id := s.nextRecordId
  (id, { s with records := s.records ++ [record_to_row id r], nextRecordId := id + 1 })

/-- The effect of `update_record`'s `UPDATE Record SET ... WHERE id=?` on a single
row: rows with a matching id get every listed column overwritten from the entity —
the `SET` list names every data column except `created_at` (and the key `id`) —
other rows are untouched. -/
def update_row (r : Record) (row : RecordRow) : RecordRow :=
  if row.id = r.id_ then
    { row with
        name := r.name
        model_type := r.model_type.value
        download_url := r.download_url
        url := r.url
        download_path := r.download_path
        download_filename := r.download_filename
        preview_url := r.preview_url
        description := r.description
        positive_prompts := r.positive_prompts
        negative_prompts := r.negative_prompts
        sha256_hash := r.sha256_hash
        md5_hash := r.md5_hash
        groups := py_join (Char.ofNat 44) r.groups
        subdir := r.subdir
        location := r.location
        weight := r.weight
        backup_url := r.backup_url }
  else row

/-- `update_record` (source lines 387-432). -/
def update_record (r : Record) (s : DbState) : DbState :=
  { s with records := s.records.map (update_row r) }

/-- `remove_record` (source lines 434-437): `DELETE FROM Record WHERE id=?`.
The connection never executes `PRAGMA foreign_keys = ON`, and SQLite leaves
foreign-key enforcement off by default, so the `ON DELETE CASCADE` clauses
declared on `TagSet` are not enforced: association rows stay in place. -/
def remove_record (id : Nat) (s : DbState) : DbState :=
  { s with records := s.records.filter (fun row => ¬ row.id = id) }

/-- `get_all_tags` (source lines 502-507): every non-empty tag name, lower-cased,
de-duplicated (`list(set(...))`; the set's order is modelled by `dedup`). -/
def get_all_tags (s : DbState) : List String :=
  (((s.tags.map (fun q => q.2)).filter (fun n => ¬ n = "")).map py_lower).dedup

/-- `add_tag` (source lines 509-519): lower-cases the name and executes a plain
`INSERT INTO Tag(name) VALUES(?)`.  `Tag.name` is declared `UNIQUE`, so inserting
an existing name raises `sqlite3.IntegrityError`, modelled as `Except.error`
(the failed statement leaves the state unchanged). -/
def add_tag (tag : String) (s : DbState) : DbState × Except String Nat :=
  let t := py_lower tag
  if s.tags.any (fun q => q.2 = t) then
    (s, Except.error "UNIQUE constraint failed: Tag.name")
  else
    (({ s with tags := s.tags ++ [(s.nextTagId, t)], nextTagId := s.nextTagId + 1 }),
      Except.ok s.nextTagId)

/-- `get_tags_for_record` (source lines 531-543): names of the tags joined to the
record, keeping non-empty ones, lower-cased. -/
def get_tags_for_record (record_id : Nat) (s : DbState) : List String :=
  let names := (s.tagSet.filter (fun p => p.1 = record_id)).filterMap
    (fun p => (s.tags.find? (fun q => q.1 = p.2)).map (fun q => q.2))
  (names.filter (fun n => ¬ n = "")).map py_lower

/-- The `for tag in new_tags: add_tag(tag)` loop of `set_tags_for_record`: each
successful insert is individually committed; the first failure propagates, keeping
the state reached so far. -/
def add_new_tags : List String → DbState → DbState × Except String (List (String × Nat))
  | [], s => (s, Except.ok [])
  | t :: ts, s =>
    match add_tag t s with
    | (s1, Except.error e) => (s1, Except.error e)
    | (s1, Except.ok id) =>
      match add_new_tags ts s1 with
      | (s2, Except.error e) => (s2, Except.error e)
      | (s2, Except.ok ps) => (s2, Except.ok ((t, id) :: ps))

/-- The write phase of `set_tags_for_record` (source lines 553-579), given the
already-computed sets of newly-needed and kept tag names: insert the new names via
`add_tag` (which raises on a name that already exists anywhere in `Tag`), resolve
ids of the kept names (`SELECT id, name FROM Tag WHERE name IN (...)`), replace the
record's associations (`DELETE FROM TagSet WHERE record_id = ?` plus one insert per
resolved id), then garbage-collect every `Tag` row with no association left
(`DELETE FROM Tag WHERE id NOT IN (SELECT DISTINCT tag_id FROM TagSet)`).  The
second component is the raised error, if any; the first is the (committed) state
reached. -/
def set_tags_core (record_id : Nat) (newTags existingTags : List String) (s : DbState) :
    DbState × Option String :=
  match add_new_tags newTags s with
  | (s1, Except.error e) => (s1, some e)
  | (s1, Except.ok newPairs) =>
    let existingPairs := (s1.tags.filter (fun q => q.2 ∈ existingTags)).map
      (fun q => (q.2, q.1))
    let mapping := newPairs ++ existingPairs
    let cleared := s1.tagSet.filter (fun p => ¬ p.1 = record_id)
    let inserted := cleared ++ mapping.map (fun p => (record_id, p.2))
    let s2 := { s1 with tagSet := inserted }
    ({ s2 with tags := s2.tags.filter (fun q => s2.tagSet.any (fun p => p.2 = q.1)) }, none)

/-- `set_tags_for_record` (source lines 545-579): normalize the input (drop falsy
values, lower-case, de-duplicate), diff against the record's own current tags into
newly-needed and kept names, then run the write phase. -/
def set_tags_for_record (record_id : Nat) (tag_list : List String) (s : DbState) :
    DbState × Option String :=
  let tagList := (tag_list.filter (fun t => ¬ t = "")).map py_lower
  let current := get_tags_for_record record_id s
  set_tags_core record_id (tagList.dedup.filter (fun t => ¬ t ∈ current))
    (tagList.dedup.filter (fun t => t ∈ current)) s

/-- `is_downloaded` as computed in `query_records`'s post-filter (source line 293):
`bool(record.location) and os.path.exists(record.location)`.  The filesystem
existence check is an external collaborator, passed in as a predicate. -/
def is_downloaded (path_exists : String → Bool) (r : Record) : Bool :=
  (¬ r.location = "") && path_exists r.location

/-- The in-application post-filter of `query_records` (source lines 290-300): the
fetched rows are kept when `show_downloaded` and downloaded, or (elif) when
`show_not_downloaded` and not downloaded. -/
def query_post_filter (path_exists : String → Bool)
    (show_downloaded show_not_downloaded : Bool) (rows : List Record) : List Record :=
  rows.filter (fun r =>
    (show_downloaded && is_downloaded path_exists r)
      || (show_not_downloaded && !(is_downloaded path_exists r)))

/-- The constant SELECT head of `query_records` (source lines 235-240); whitespace
is collapsed to single spaces, the token sequence is preserved exactly. -/
def query_base_sql : String :=
  "SELECT r.*, GROUP_CONCAT(t.name, \x27,\x27) AS tags FROM Record r LEFT JOIN TagSet ts ON r.id = ts.record_id LEFT JOIN Tag t ON t.id = ts.tag_id"

/-- The name filter clause appended by `query_records` (source line 250): the f-string
`" LOWER(r.name) LIKE '%?%'"` interpolates nothing, so the `?` stands inside a
quoted SQL string literal rather than being a parameter placeholder. -/
def name_like_clause : String := " LOWER(r.name) LIKE \x27%?%\x27"

/-- The per-group clause appended by `query_records` (source line 274): here the
`%?%` is outside any quotes (`%` is SQLite's modulo operator, so the statement is
not even syntactically valid). -/
def group_like_clause : String := " t.name LIKE %?%"

/-- The SQL text composed by `query_records` (source lines 235-277), following the
source's `is_where_appended`/`append_and` flag machine.  `none`/empty inputs are
skipped exactly when the Python truthiness tests skip them. -/
def build_query_sql (name_query : Option String) (groups : Option (List String))
    (model_types : Option (List String)) : String :=
  let hasName : Bool := match name_query with | some s => ¬ s = "" | none => false
  let hasTypes : Bool := match model_types with | some l => ¬ l = [] | none => false
  let hasGroups : Bool := match groups with | some l => ¬ l = [] | none => false
  let namePart := if hasName then " WHERE" ++ name_like_clause else ""
  let typesPart :=
    if hasTypes then
      (if ¬ hasName then " WHERE" else "") ++ (if hasName then " AND" else "")
        ++ " (" ++ String.intercalate " OR "
              ((model_types.getD []).map (fun _ => "r.model_type=?")) ++ ")"
    else ""
  let groupsPart :=
    if hasGroups then
      (if ¬ (hasName || hasTypes) then " WHERE" else "")
        ++ String.join (((groups.getD []).enum).map (fun p =>
            (if (hasName || hasTypes) || 0 < p.1 then " AND" else "") ++ group_like_clause))
    else ""
  query_base_sql ++ namePart ++ typesPart ++ groupsPart ++ " GROUP BY r.id"

/-- The parameter list bound by `query_records` (source lines 280-286): the
lower-cased `%...%` name pattern (when the name filter is truthy), then the model
types, then the lower-cased `%...%` group patterns. -/
def build_query_params (name_query : Option String) (groups : Option (List String))
    (model_types : Option (List String)) : List String :=
  (match name_query with
    | some s => if ¬ s = "" then ["%" ++ py_lower s ++ "%"] else []
    | none => [])
  ++ (match model_types with | some l => l | none => [])
  ++ (match groups with
    | some l => l.map (fun g => "%" ++ py_lower g ++ "%")
    | none => [])

/-- Counts the `?` parameter placeholders of an SQL text the way SQLite's tokenizer
sees them: a `?` inside a single-quoted string literal is literal text, not a
placeholder. -/
def count_sql_placeholders : List Char → Bool → Nat
  | [], _ => 0
  | c :: cs, inQuote =>
    if c = Char.ofNat 39 then count_sql_placeholders cs (!inQuote)
    else if c = Char.ofNat 63 ∧ inQuote = false then 1 + count_sql_placeholders cs inQuote
    else count_sql_placeholders cs inQuote

/-- Placeholder count of a whole SQL string. -/
def sql_placeholder_count (sql : String) : Nat :=
  count_sql_placeholders sql.data false

/-- The schema-side state the migration chain acts on: the recorded `Version` row
and the log of executed DDL statements (each `_migrate_N_to_M` runs its DDL, resets
the `Version` row to the new version, and commits). -/
structure MigDb where
  version : Nat
  schema_log : List String
deriving DecidableEq

/-- Migration-time state: the (committed) database plus the set of backup files
present alongside the database file.  Only the backup files matter to the claims;
the live database file itself always exists and is not listed. -/
structure MigState where
  db : MigDb
  backups : List String
deriving DecidableEq

/-- `_DB_FILE` (source line 13); the directory resolution of `_database_path` is an
external collaborator, so the path is modelled by the bare file name. -/
def db_file_path : String := "database.sqlite"

/-- `_DB_VERSION` (source line 14). -/
def DB_VERSION : Nat := 8

/-- The backup file path `f'{db_file_path}.v{migrate_from}.bak'`. -/
def backup_path (v : Nat) : String := db_file_path ++ ".v" ++ toString v ++ ".bak"

/-- The filesystem effect of `_backup_database` (source lines 137-145): remove the
previous iteration's backup (for `migrate_from - 1`, only when `migrate_from > 1`
and it exists), then copy the database file to the backup path for `migrate_from`
(`shutil.copy` overwrites, so an already-present path is not duplicated). -/
def backup_files_step (migrate_from : Nat) (fs : List String) : List String :=
  let fs1 := if 1 < migrate_from ∧ backup_path (migrate_from - 1) ∈ fs then
      fs.erase (backup_path (migrate_from - 1)) else fs
  if backup_path migrate_from ∈ fs1 then fs1 else fs1 ++ [backup_path migrate_from]

/-- `_backup_database` on the migration state. -/
def backup_database (migrate_from : Nat) (st : MigState) : MigState :=
  { st with backups := backup_files_step migrate_from st.backups }

/-- `_migrate_1_to_2` (source lines 147-152). -/
def migrate_1_to_2 (db : MigDb) : MigDb :=
  { version := 2
    schema_log := db.schema_log ++ ["ALTER TABLE Record ADD COLUMN created_at INTEGER DEFAULT 0"] }

/-- `_migrate_2_to_3` (source lines 154-159). -/
def migrate_2_to_3 (db : MigDb) : MigDb :=
  { version := 3
    schema_log := db.schema_log ++ ["ALTER TABLE Record ADD COLUMN groups TEXT DEFAULT"] }

/-- `_migrate_3_to_4` (source lines 161-167). -/
def migrate_3_to_4 (db : MigDb) : MigDb :=
  { version := 4
    schema_log := db.schema_log ++
      ["ALTER TABLE Record RENAME COLUMN model_hash TO sha256_hash",
       "ALTER TABLE Record ADD COLUMN subdir TEXT DEFAULT"] }

/-- `_migrate_4_to_5` (source lines 169-174). -/
def migrate_4_to_5 (db : MigDb) : MigDb :=
  { version := 5
    schema_log := db.schema_log ++ ["ALTER TABLE Record ADD COLUMN location TEXT DEFAULT"] }

/-- `_migrate_5_to_6` (source lines 176-181). -/
def migrate_5_to_6 (db : MigDb) : MigDb :=
  { version := 6
    schema_log := db.schema_log ++ ["ALTER TABLE Record ADD COLUMN weight REAL DEFAULT 1"] }

/-- `_migrate_6_to_7` (source lines 183-188). -/
def migrate_6_to_7 (db : MigDb) : MigDb :=
  { version := 7
    schema_log := db.schema_log ++ ["ALTER TABLE Record ADD COLUMN backup_url TEXT DEFAULT"] }

/-- `_migrate_7_to_8` (source lines 190-214). -/
def migrate_7_to_8 (db : MigDb) : MigDb :=
  { version := 8
    schema_log := db.schema_log ++
      ["CREATE TABLE IF NOT EXISTS Tag", "CREATE TABLE IF NOT EXISTS TagSet",
       "ALTER TABLE Record RENAME COLUMN _name TO name"] }

/-- The `migration_map` dictionary of `_run_migration` (source lines 121-129). -/
def migration_map (v : Nat) : Option (MigDb → MigDb) :=
  if v = 1 then some migrate_1_to_2
  else if v = 2 then some migrate_2_to_3
  else if v = 3 then some migrate_3_to_4
  else if v = 4 then some migrate_4_to_5
  else if v = 5 then some migrate_5_to_6
  else if v = 6 then some migrate_6_to_7
  else if v = 7 then some migrate_7_to_8
  else none

/-- The body of `_run_migration`'s `for ver in range(current_version, _DB_VERSION)`
loop, over an explicit list of versions and the consulted migration map: back up,
look up the step, raise `Exception(f'Missing SQLite migration from {ver} to
{_DB_VERSION}')` when absent (keeping the state committed so far), otherwise apply
the step (which commits) and continue. -/
def run_migration_chain (mmap : Nat → Option (MigDb → MigDb)) :
    List Nat → MigState → MigState × Option String
  | [], st => (st, none)
  | v :: vs, st =>
    let st1 := backup_database v st
    match mmap v with
    | none =>
      (st1, some ("Missing SQLite migration from " ++ toString v ++ " to "
        ++ toString DB_VERSION))
    | some m => run_migration_chain mmap vs { st1 with db := m st1.db }

/-- `_run_migration` (source lines 120-135): the chain from the stored version up to
`_DB_VERSION - 1`, consulting `migration_map`. -/
def run_migration (current_version : Nat) (st : MigState) : MigState × Option String :=
  run_migration_chain migration_map
    (List.range' current_version (DB_VERSION - current_version)) st

/-! ## Helper lemmas -/

theorem ModelType.by_value_value (t : ModelType) : ModelType.by_value t.value = some t := by
  cases t <;> rfl

theorem split_chars_ne_nil (sep : Char) (l : List Char) : ¬ split_chars sep l = [] := by
  induction l with
  | nil => simp [split_chars]
  | cons c cs ih =>
    simp only [split_chars]
    rcases h : split_chars sep cs with _ | ⟨r, rs⟩
    · simp
    · by_cases hc : c = sep <;> simp [hc]

theorem split_chars_of_not_mem (sep : Char) (l : List Char) (h : ¬ sep ∈ l) :
    split_chars sep l = [l] := by
  induction l with
  | nil => rfl
  | cons c cs ih =>
    simp only [List.mem_cons, not_or] at h
    have hc : ¬ c = sep := fun hcc => h.1 hcc.symm
    simp [split_chars, ih h.2, hc]

theorem split_chars_append (sep : Char) (l t : List Char) (h : ¬ sep ∈ l) :
    split_chars sep (l ++ sep :: t) = l :: split_chars sep t := by
  induction l with
  | nil =>
    simp only [List.nil_append, split_chars]
    rcases ht : split_chars sep t with _ | ⟨r, rs⟩
    · exact absurd ht (split_chars_ne_nil sep t)
    · simp
  | cons c cs ih =>
    simp only [List.mem_cons, not_or] at h
    have hc : ¬ c = sep := fun hcc => h.1 hcc.symm
    simp [List.cons_append, split_chars, ih h.2, hc]

theorem split_join_chars (sep : Char) (ls : List (List Char)) (h0 : ¬ ls = [])
    (h1 : ∀ l ∈ ls, ¬ sep ∈ l) : split_chars sep (join_chars sep ls) = ls := by
  induction ls with
  | nil => exact absurd rfl h0
  | cons l ls ih =>
    rcases ls with _ | ⟨l2, ls2⟩
    · exact split_chars_of_not_mem sep l (h1 l (by simp))
    · have hl : ¬ sep ∈ l := h1 l (by simp)
      have hrest : ∀ m ∈ l2 :: ls2, ¬ sep ∈ m := fun m hm => h1 m (by simp [hm])
      simp only [join_chars]
      rw [split_chars_append sep l _ hl, ih (by simp) hrest]

theorem join_chars_eq_nil (sep : Char) (ls : List (List Char)) (h : join_chars sep ls = []) :
    ls = [] ∨ ls = [[]] := by
  rcases ls with _ | ⟨l, _ | ⟨l2, ls2⟩⟩
  · exact Or.inl rfl
  · simp only [join_chars] at h
    simp [h]
  · simp [join_chars] at h

/-- Round trip of the `groups` field through `",".join` (on insert/update) and the
mapper's truthiness-guarded `split(',')`: holds whenever no group value contains
the comma delimiter and the list is not the single empty string. -/
theorem groups_round_trip (gs : List String) (hA : ¬ gs = [""])
    (hB : ∀ g ∈ gs, ¬ (Char.ofNat 44) ∈ g.data) :
    (if py_join (Char.ofNat 44) gs = "" then []
      else py_split (Char.ofNat 44) (py_join (Char.ofNat 44) gs)) = gs := by
  cases gs with
  | nil => rfl
  | cons g gs2 =>
    have hne : ¬ py_join (Char.ofNat 44) (g :: gs2) = "" := by
      intro hj
      have hdata : join_chars (Char.ofNat 44) ((g :: gs2).map String.data) = [] :=
        congrArg String.data hj
      rcases join_chars_eq_nil _ _ hdata with h | h
      · simp at h
      · simp only [List.map_cons] at h
        injection h with hg hrest
        have hg2 : g = "" := by
          cases g
          simp only [String.data] at hg
          simp [hg]
        have hgs2 : gs2 = [] := by simpa using hrest
        exact hA (by simp [hg2, hgs2])
    rw [if_neg hne]
    have hmem : ∀ l ∈ (g :: gs2).map String.data, ¬ (Char.ofNat 44) ∈ l := by
      intro l hl
      rcases List.mem_map.mp hl with ⟨g0, hg0, rfl⟩
      exact hB g0 hg0
    show (split_chars (Char.ofNat 44)
        (join_chars (Char.ofNat 44) ((g :: gs2).map String.data))).map String.mk = g :: gs2
    rw [split_join_chars _ _ (by simp) hmem]
    rw [List.map_map]
    have hid : (String.mk ∘ String.data) = id := funext fun s => rfl
    rw [hid, List.map_id]

theorem find?_append_singleton {α : Type} (l : List α) (x : α) (p : α → Bool)
    (h : ∀ y ∈ l, p y = false) :
    (l ++ [x]).find? p = if p x then some x else none := by
  induction l with
  | nil => cases hx : p x <;> simp [List.find?, hx]
  | cons a l ih =>
    have ha : p a = false := h a (by simp)
    simp only [List.cons_append, List.find?, ha]
    exact ih fun y hy => h y (by simp [hy])

/-- Reading a record by id when its row is present: the joined row is mapped. -/
theorem get_record_by_id_of_find? (s : DbState) (id : Nat) (row : RecordRow)
    (h : s.records.find? (fun q => q.id = id) = some row) :
    get_record_by_id id s = map_row_to_record { r := row, tags := aggregated_tags id s } := by
  simp only [get_record_by_id, h]

theorem map_rows_to_records_length (rows : List JoinedRow) (res : List Record)
    (h : map_rows_to_records rows = some res) : res.length = rows.length := by
  induction rows generalizing res with
  | nil =>
    simp only [map_rows_to_records, Option.some.injEq] at h
    simp [← h]
  | cons row rest ih =>
    simp only [map_rows_to_records] at h
    rcases h1 : map_row_to_record row with _ | r <;> rw [h1] at h
    · simp at h
    · rcases h2 : map_rows_to_records rest with _ | rs <;> rw [h2] at h
      · simp at h
      · simp only [Option.some.injEq] at h
        subst h
        simp [ih rs h2]

/-! ## Concrete fixtures -/

/-- A freshly initialized database. -/
def empty_db : DbState :=
  { records := [], tags := [], tagSet := [], nextRecordId := 1, nextTagId := 1 }

/-- A minimal `Record` table row. -/
def sample_row (id : Nat) (nm : String) : RecordRow :=
  { id := id, name := nm, model_type := "checkpoint", download_url := "", url := ""
    download_path := "", download_filename := "", preview_url := "", description := ""
    positive_prompts := "", negative_prompts := "", sha256_hash := "", md5_hash := ""
    created_at := 0, groups := "", subdir := "", location := "", weight := 1
    backup_url := "" }

/-- Two records A (id 1) and B (id 2), no tags yet. -/
def two_record_db : DbState :=
  { records := [sample_row 1 "A", sample_row 2 "B"], tags := [], tagSet := []
    nextRecordId := 3, nextTagId := 1 }

/-- One record (id 1) carrying tag `"x"` (tag id 1). -/
def tagged_db : DbState :=
  { records := [sample_row 1 "A"], tags := [(1, "x")], tagSet := [(1, 1)]
    nextRecordId := 2, nextTagId := 2 }

/-- A record whose single group value contains the comma delimiter. -/
def comma_group_record : Record :=
  { id_ := 0, name := "Anime V1", model_type := .checkpoint, download_url := "", url := ""
    download_path := "", download_filename := "", preview_url := "", description := ""
    positive_prompts := "", negative_prompts := "", sha256_hash := "", md5_hash := ""
    created_at := 0, groups := ["a,b"], subdir := "", location := "", weight := 1
    backup_url := "" }

/-! ## Claim C1 -/

/-- Claim C1, evaluated at its failing input.  After `set_tags_for_record(A, {"x"})`
succeeds on a two-record store, `set_tags_for_record(B, {"x"})` does NOT succeed:
`set_tags_for_record` diffs the desired names only against B's own current tags, so
`"x"` counts as newly needed and `add_tag` runs an unconditional
`INSERT INTO Tag(name)`, which violates the `UNIQUE` constraint and raises.  No
second `Tag` row is created, but B gains no tags: `tags_for(B)` does not contain
`"x"` (while `tags_for(A)` does). -/
theorem C1_second_set_tags_raises :
    (set_tags_for_record 1 ["x"] two_record_db).2 = none
    ∧ (set_tags_for_record 2 ["x"] (set_tags_for_record 1 ["x"] two_record_db).1).2
        = some "UNIQUE constraint failed: Tag.name"
    ∧ ((set_tags_for_record 2 ["x"] (set_tags_for_record 1 ["x"] two_record_db).1).1.tags.filter
        (fun q => q.2 = "x")).length = 1
    ∧ ¬ "x" ∈ get_tags_for_record 2
        (set_tags_for_record 2 ["x"] (set_tags_for_record 1 ["x"] two_record_db).1).1
    ∧ "x" ∈ get_tags_for_record 1
        (set_tags_for_record 2 ["x"] (set_tags_for_record 1 ["x"] two_record_db).1).1 := by
  decide

/-! ## Claim C2 -/

/-- Claim C2 counterexample: the trailing aggregated-tags column is NOT comma-split
into the returned `Record` — `map_row_to_record` never reads position 19, so the
mapped entity is identical whether the aggregate is `"x,y"` or `NULL`, and the
split lands in no field of the result (`groups` stays `[]`). -/
theorem C2_mapper_ignores_tags_column :
    map_row_to_record { r := sample_row 1 "A", tags := some "x,y" }
      = map_row_to_record { r := sample_row 1 "A", tags := none }
    ∧ (map_row_to_record { r := sample_row 1 "A", tags := some "x,y" }).map Record.groups
      = some []
    ∧ ¬ (map_row_to_record { r := sample_row 1 "A", tags := some "x,y" }) = none := by
  decide

/-- Claim C2 as amended: every read query aggregates the tags column via the left
join + group-by, and a `Record` with zero tags is still returned (`get_all_records`
returns one entity per `Record` row; `get_record_by_id` maps whatever row it finds,
with the aggregate attached), but the row-to-entity mapper ignores the trailing
aggregated-tags column entirely, so the returned `Record` carries no tag data. -/
theorem C2_reads_return_all_records_but_drop_tags_column :
    (∀ (row : RecordRow) (t1 t2 : Option String),
      map_row_to_record { r := row, tags := t1 } = map_row_to_record { r := row, tags := t2 })
    ∧ (∀ (s : DbState) (rows : List Record),
        get_all_records s = some rows → rows.length = s.records.length)
    ∧ (∀ (s : DbState) (id : Nat) (row : RecordRow),
        s.records.find? (fun q => q.id = id) = some row →
        get_record_by_id id s
          = map_row_to_record { r := row, tags := aggregated_tags id s }) := by
  refine ⟨fun row t1 t2 => rfl, fun s rows h => ?_, fun s id row h => get_record_by_id_of_find? s id row h⟩
  have := map_rows_to_records_length _ _ h
  simpa using this

/-! ## Claim C3 -/

set_option maxRecDepth 16384

/-- Claim C3, refuted at a concrete input: a group value containing the comma
delimiter does not survive the `add`/`get_by_id` round trip (`["a,b"]` comes back
as `["a","b"]`). -/
theorem C3_comma_group_breaks_round_trip :
    ¬ get_record_by_id (add_record comma_group_record empty_db).1
        (add_record comma_group_record empty_db).2
      = some { comma_group_record with id_ := (add_record comma_group_record empty_db).1 } := by
  decide

/-- Claim C3 as amended: `add` followed by `get_by_id` returns the input `Record`
unchanged except for the store-assigned identifier, for every starting state whose
rows do not already use the assigned id, provided no group value contains the
comma delimiter and the group list is not the singleton empty string (both
restrictions forced by the comma-joined `groups` serialization). -/
theorem C3_round_trip (r : Record) (s : DbState)
    (hg : ∀ g ∈ r.groups, ¬ (Char.ofNat 44) ∈ g.data)
    (hne : ¬ r.groups = [""])
    (hid : ∀ row ∈ s.records, ¬ row.id = s.nextRecordId) :
    get_record_by_id (add_record r s).1 (add_record r s).2
      = some { r with id_ := (add_record r s).1 } := by
  have hfind : ((add_record r s).2).records.find? (fun q => q.id = (add_record r s).1)
      = some (record_to_row s.nextRecordId r) := by
    simp only [add_record]
    rw [find?_append_singleton]
    · simp [record_to_row]
    · intro y hy
      simp [hid y hy]
  rw [get_record_by_id_of_find? _ _ _ hfind]
  simp only [map_row_to_record, record_to_row, ModelType.by_value_value, add_record]
  rw [groups_round_trip r.groups hne hg]

/-! ## Claim C4 -/

/-- Claim C4, evaluated at the spec's own fixture input
(`name_substring="drag"`, `model_types=["checkpoint"]`): the composed SQL contains
the name clause with its `?` inside a quoted string literal, so SQLite sees only
one placeholder (the model-type one) while two parameters are bound — the
statement fails with a binding-count error instead of filtering by name
substring (and the quoted `'%?%'` pattern itself holds zero placeholders). -/
theorem C4_name_filter_binding_mismatch :
    sql_placeholder_count (build_query_sql (some "drag") none (some ["checkpoint"])) = 1
    ∧ (build_query_params (some "drag") none (some ["checkpoint"])).length = 2
    ∧ name_like_clause.data <:+: (build_query_sql (some "drag") none (some ["checkpoint"])).data
    ∧ sql_placeholder_count name_like_clause = 0 := by
  decide

/-! ## Claim C6 -/

/-- Claim C6, evaluated at its failing input: removing record 1, which carries tag
association `(1, 1)`, deletes the `Record` row but leaves the `TagSet` association
row in place — SQLite's foreign-key enforcement is off by default and the store
never enables it, so the declared `ON DELETE CASCADE` never fires. -/
theorem C6_remove_record_leaves_association :
    (remove_record 1 tagged_db).records = []
    ∧ (1, 1) ∈ (remove_record 1 tagged_db).tagSet
    ∧ (remove_record 1 tagged_db).tagSet = [(1, 1)] := by
  decide

/-! ## Claim C5 -/

theorem add_tag_state (t : String) (s : DbState) :
    (add_tag t s).1.tagSet = s.tagSet
    ∧ s.nextTagId ≤ (add_tag t s).1.nextTagId
    ∧ ∀ q ∈ (add_tag t s).1.tags, q ∈ s.tags ∨ s.nextTagId ≤ q.1 := by
  simp only [add_tag]
  split
  · exact ⟨rfl, Nat.le_refl _, fun q hq => Or.inl hq⟩
  · refine ⟨rfl, Nat.le_succ _, fun q hq => ?_⟩
    rcases List.mem_append.mp hq with h | h
    · exact Or.inl h
    · simp only [List.mem_singleton] at h
      subst h
      exact Or.inr (Nat.le_refl _)

theorem add_new_tags_state (ts : List String) (s : DbState) :
    (add_new_tags ts s).1.tagSet = s.tagSet
    ∧ s.nextTagId ≤ (add_new_tags ts s).1.nextTagId
    ∧ ∀ q ∈ (add_new_tags ts s).1.tags, q ∈ s.tags ∨ s.nextTagId ≤ q.1 := by
  induction ts generalizing s with
  | nil => exact ⟨rfl, Nat.le_refl _, fun q hq => Or.inl hq⟩
  | cons t ts ih =>
    have hA := add_tag_state t s
    rcases h1 : add_tag t s with ⟨s1, e1⟩
    rw [h1] at hA
    cases e1 with
    | error e =>
      simp only [add_new_tags, h1]
      exact hA
    | ok id =>
      have hB := ih s1
      rcases h2 : add_new_tags ts s1 with ⟨s2, e2⟩
      rw [h2] at hB
      have key : add_new_tags (t :: ts) s
          = (s2, match e2 with
              | Except.error e => Except.error e
              | Except.ok ps => Except.ok ((t, id) :: ps)) := by
        simp only [add_new_tags, h1, h2]
        cases e2 <;> rfl
      rw [key]
      refine ⟨hB.1.trans hA.1, Nat.le_trans hA.2.1 hB.2.1, fun q hq => ?_⟩
      rcases hB.2.2 q hq with h | h
      · rcases hA.2.2 q h with h' | h'
        · exact Or.inl h'
        · exact Or.inr h'
      · exact Or.inr (Nat.le_trans hA.2.1 h)

theorem set_tags_core_state (rid : Nat) (nt et : List String) (s : DbState) :
    (∀ p ∈ (set_tags_core rid nt et s).1.tagSet, ¬ p.1 = rid → p ∈ s.tagSet)
    ∧ ∀ q ∈ (set_tags_core rid nt et s).1.tags, q ∈ s.tags ∨ s.nextTagId ≤ q.1 := by
  have hA := add_new_tags_state nt s
  rcases h1 : add_new_tags nt s with ⟨s1, e1⟩
  rw [h1] at hA
  cases e1 with
  | error e =>
    simp only [set_tags_core, h1]
    exact ⟨fun p hp _ => hA.1 ▸ hp, hA.2.2⟩
  | ok ps =>
    simp only [set_tags_core, h1]
    constructor
    · intro p hp hne
      rcases List.mem_append.mp hp with h | h
      · exact hA.1 ▸ (List.mem_filter.mp h).1
      · rcases List.mem_map.mp h with ⟨pr, hpr, hfp⟩
        subst hfp
        exact absurd rfl hne
    · intro q hq
      exact hA.2.2 q (List.mem_filter.mp hq).1

theorem set_tags_core_gc (rid : Nat) (nt et : List String) (s : DbState)
    (h : (set_tags_core rid nt et s).2 = none) :
    ∀ q ∈ (set_tags_core rid nt et s).1.tags,
      ∃ p ∈ (set_tags_core rid nt et s).1.tagSet, p.2 = q.1 := by
  rcases h1 : add_new_tags nt s with ⟨s1, e1⟩
  cases e1 with
  | error e =>
    simp only [set_tags_core, h1] at h
    exact absurd h (by simp)
  | ok ps =>
    simp only [set_tags_core, h1]
    intro q hq
    have hq' := List.mem_filter.mp hq
    rcases List.any_eq_true.mp hq'.2 with ⟨p, hp, hpq⟩
    exact ⟨p, hp, of_decide_eq_true hpq⟩

theorem set_tags_for_record_mono (rid : Nat) (ts : List String) (s : DbState) :
    (∀ p ∈ (set_tags_for_record rid ts s).1.tagSet, ¬ p.1 = rid → p ∈ s.tagSet)
    ∧ ∀ q ∈ (set_tags_for_record rid ts s).1.tags, q ∈ s.tags ∨ s.nextTagId ≤ q.1 := by
  simp only [set_tags_for_record]
  exact set_tags_core_state _ _ _ _

theorem set_tags_for_record_gc (rid : Nat) (ts : List String) (s : DbState)
    (h : (set_tags_for_record rid ts s).2 = none) :
    ∀ q ∈ (set_tags_for_record rid ts s).1.tags,
      ∃ p ∈ (set_tags_for_record rid ts s).1.tagSet, p.2 = q.1 := by
  simp only [set_tags_for_record] at h ⊢
  exact set_tags_core_gc _ _ _ _ h

theorem set_tags_for_record_nil (rid : Nat) (s : DbState) :
    (set_tags_for_record rid [] s).2 = none
    ∧ (∀ p ∈ (set_tags_for_record rid [] s).1.tagSet, p ∈ s.tagSet ∧ ¬ p.1 = rid)
    ∧ ∀ q ∈ (set_tags_for_record rid [] s).1.tags, q ∈ s.tags := by
  simp only [set_tags_for_record, set_tags_core, add_new_tags, List.filter_nil, List.map_nil,
    List.dedup_nil, List.nil_append]
  refine ⟨by simp, fun p hp => ?_, fun q hq => (List.mem_filter.mp hq).1⟩
  rcases List.mem_append.mp hp with h | h
  · have h' := List.mem_filter.mp h
    exact ⟨h'.1, by simpa using h'.2⟩
  · exfalso
    rcases List.mem_map.mp h with ⟨pr, hpr, hfp⟩
    rcases List.mem_map.mp hpr with ⟨q0, hq0, hfq⟩
    have := (List.mem_filter.mp hq0).2
    simp at this

/-- Claim C5: after `set_tags_for_record(A, {x})` succeeds and then
`set_tags_for_record(A, {})` runs, a tag named (the lower-casing of) `x` is no
longer reported by `get_all_tags`, provided no record other than A was associated
with such a tag beforehand (and the state is well formed in that association rows
reference only already-assigned tag ids); moreover the final garbage-collection
step leaves no tag row without an association anywhere in the store. -/
theorem C5_orphan_tag_gc (s : DbState) (a : Nat) (x : String)
    (hWF : ∀ p ∈ s.tagSet, p.2 < s.nextTagId)
    (hOther : ∀ p ∈ s.tagSet, ¬ p.1 = a →
      ∀ q ∈ s.tags, q.1 = p.2 → ¬ py_lower q.2 = py_lower x)
    (hOk : (set_tags_for_record a [x] s).2 = none) :
    ¬ py_lower x ∈ get_all_tags
        (set_tags_for_record a [] (set_tags_for_record a [x] s).1).1
    ∧ ∀ q ∈ (set_tags_for_record a [] (set_tags_for_record a [x] s).1).1.tags,
        ∃ p ∈ (set_tags_for_record a [] (set_tags_for_record a [x] s).1).1.tagSet,
          p.2 = q.1 := by
  have H1 := set_tags_for_record_mono a [x] s
  have HN := set_tags_for_record_nil a (set_tags_for_record a [x] s).1
  have HG := set_tags_for_record_gc a [] (set_tags_for_record a [x] s).1 HN.1
  refine ⟨?_, HG⟩
  intro hmem
  simp only [get_all_tags, List.mem_dedup, List.mem_map, List.mem_filter] at hmem
  rcases hmem with ⟨n, ⟨⟨q, hq, hqn⟩, hne⟩, hnx⟩
  subst hqn
  rcases HG q hq with ⟨p, hp, hpq⟩
  have hp1 := HN.2.1 p hp
  have hpS : p ∈ s.tagSet := H1.1 p hp1.1 hp1.2
  have hq1 : q ∈ (set_tags_for_record a [x] s).1.tags := HN.2.2 q hq
  rcases H1.2 q hq1 with hqS | hqLe
  · exact hOther p hpS hp1.2 q hqS hpq.symm hnx
  · have := hWF p hpS
    omega

/-! ## Claims C7 and C8 -/

theorem run_chain_backups (mmap : Nat → Option (MigDb → MigDb)) (vs : List Nat)
    (st : MigState) (h : ∀ v ∈ vs, (mmap v).isSome) :
    (run_migration_chain mmap vs st).2 = none
    ∧ (run_migration_chain mmap vs st).1.backups
        = vs.foldl (fun fs v => backup_files_step v fs) st.backups := by
  induction vs generalizing st with
  | nil => exact ⟨rfl, rfl⟩
  | cons v vs ih =>
    rcases hm : mmap v with _ | m
    · have hv := h v (by simp)
      rw [hm] at hv
      simp at hv
    · simp only [run_migration_chain, hm]
      have H := ih { backup_database v st with db := m (backup_database v st).db }
        (fun w hw => h w (by simp [hw]))
      refine ⟨H.1, ?_⟩
      rw [H.2]
      rfl

theorem run_chain_missing (mmap : Nat → Option (MigDb → MigDb)) (vs1 : List Nat)
    (g : Nat) (vs2 : List Nat) (st : MigState) (h2 : mmap g = none) :
    (∀ v ∈ vs1, (mmap v).isSome) →
    ((run_migration_chain mmap vs1 st).2 = none
      ∧ run_migration_chain mmap (vs1 ++ g :: vs2) st
          = (backup_database g (run_migration_chain mmap vs1 st).1,
             some ("Missing SQLite migration from " ++ toString g ++ " to "
               ++ toString DB_VERSION))) := by
  induction vs1 generalizing st with
  | nil =>
    intro _
    refine ⟨rfl, ?_⟩
    simp only [List.nil_append, run_migration_chain, h2]
  | cons v vs ih =>
    intro h1
    rcases hm : mmap v with _ | m
    · have hv := h1 v (by simp)
      rw [hm] at hv
      simp at hv
    · have IH := ih { backup_database v st with db := m (backup_database v st).db }
        (fun w hw => h1 w (by simp [hw]))
      constructor
      · simp only [run_migration_chain, hm]
        exact IH.1
      · simp only [List.cons_append, run_migration_chain, hm]
        exact IH.2

/-- Claim C7: running the migrator from a stored version `v` with at least two
remaining steps (`1 ≤ v ≤ 6`, so the chain `v, v+1, ..., 7` has length ≥ 2),
starting with no backup file present, succeeds and leaves exactly one backup file:
the snapshot taken before the last applied step (version 7); every earlier
snapshot, including the one for `v`, has been removed along the way. -/
theorem C7_backup_retention (v : Nat) (st : MigState)
    (h1 : 1 ≤ v) (h2 : v ≤ 6) (h3 : st.backups = []) :
    (run_migration v st).2 = none
    ∧ (run_migration v st).1.backups = [backup_path 7] := by
  have hpres : ∀ w ∈ List.range' v (DB_VERSION - v), (migration_map w).isSome := by
    interval_cases v <;> decide
  have H := run_chain_backups migration_map (List.range' v (DB_VERSION - v)) st hpres
  refine ⟨H.1, ?_⟩
  show (run_migration_chain migration_map (List.range' v (DB_VERSION - v)) st).1.backups
      = [backup_path 7]
  rw [H.2, h3]
  interval_cases v <;> decide

/-- Claim C8: if some version in the chain has no registered migration function,
the loop raises `Missing SQLite migration from {ver} to 8` at the first such
version and stops; everything before that point is retained exactly as the
prefix run left it (each prefix step applied and committed, plus the backup taken
for the missing version), since each step commits individually.  With the source's
own `migration_map` (which registers versions 1-7) this fires for a stored
version ≤ 0, e.g. the chain started at version 0 fails immediately. -/
theorem C8_missing_migration_fails_keeps_prefix (mmap : Nat → Option (MigDb → MigDb))
    (vs1 : List Nat) (g : Nat) (vs2 : List Nat) (st : MigState)
    (h2 : mmap g = none) (h1 : ∀ v ∈ vs1, (mmap v).isSome) :
    (run_migration_chain mmap vs1 st).2 = none
    ∧ run_migration_chain mmap (vs1 ++ g :: vs2) st
        = (backup_database g (run_migration_chain mmap vs1 st).1,
           some ("Missing SQLite migration from " ++ toString g ++ " to "
             ++ toString DB_VERSION))
    ∧ (run_migration 0 st).2
        = some ("Missing SQLite migration from " ++ toString 0 ++ " to "
          ++ toString DB_VERSION) := by
  have H := run_chain_missing mmap vs1 g vs2 st h2 h1
  exact ⟨H.1, H.2, rfl⟩

/-! ## Claim C9 -/

/-- Claim C9: the download-state filtering of `query_records` is an in-application
post-filter on `is_downloaded = location non-empty AND location exists`: a fetched
row is kept only when its download state matches the requested inclusion flags,
and in particular with `show_downloaded=false, show_not_downloaded=true` the result
is exactly the non-downloaded rows — every record whose location the filesystem
reports as existing is excluded (the hypothesis `path_exists "" = false` mirrors
`os.path.exists('')`). -/
theorem C9_download_state_post_filter (pe : String → Bool) (rows : List Record)
    (h0 : pe "" = false) :
    query_post_filter pe false true rows
        = rows.filter (fun r => !(is_downloaded pe r))
    ∧ (∀ r ∈ query_post_filter pe false true rows, pe r.location = false)
    ∧ (∀ sd snd r, r ∈ query_post_filter pe sd snd rows →
        (is_downloaded pe r = true → sd = true)
        ∧ (is_downloaded pe r = false → snd = true)) := by
  refine ⟨?_, ?_, ?_⟩
  · simp [query_post_filter]
  · intro r hr
    simp only [query_post_filter, List.mem_filter, Bool.false_and, Bool.false_or,
      Bool.true_and] at hr
    have hd : is_downloaded pe r = false := by simpa using hr.2
    by_cases hl : r.location = ""
    · rw [hl]
      exact h0
    · cases hpe : pe r.location with
      | false => rfl
      | true =>
        exfalso
        simp [is_downloaded, hl, hpe] at hd
  · intro sd snd r hr
    simp only [query_post_filter, List.mem_filter] at hr
    have hb := hr.2
    constructor
    · intro hd
      rw [hd] at hb
      cases sd with
      | false => simp at hb
      | true => rfl
    · intro hd
      rw [hd] at hb
      cases snd with
      | false => simp at hb
      | true => rfl

/-! ## Claim C10 -/

/-- Claim C10 (implicit frame property of `update_record`): the `SET` list of the
`UPDATE` statement names every data column except `created_at`, and the row key
`id` is only matched, never written.  Hence for every stored row: its `created_at`
and `id` are unchanged; a row whose id differs from the entity's is untouched; and
a matching row has every other column overwritten from the entity. -/
theorem C10_update_never_writes_created_at (r : Record) (s : DbState) :
    (update_record r s).records = s.records.map (update_row r)
    ∧ ∀ row : RecordRow,
        (update_row r row).created_at = row.created_at
        ∧ (update_row r row).id = row.id
        ∧ (¬ row.id = r.id_ → update_row r row = row)
        ∧ (row.id = r.id_ →
            (update_row r row).name = r.name
            ∧ (update_row r row).model_type = r.model_type.value
            ∧ (update_row r row).download_url = r.download_url
            ∧ (update_row r row).url = r.url
            ∧ (update_row r row).download_path = r.download_path
            ∧ (update_row r row).download_filename = r.download_filename
            ∧ (update_row r row).preview_url = r.preview_url
            ∧ (update_row r row).description = r.description
            ∧ (update_row r row).positive_prompts = r.positive_prompts
            ∧ (update_row r row).negative_prompts = r.negative_prompts
            ∧ (update_row r row).sha256_hash = r.sha256_hash
            ∧ (update_row r row).md5_hash = r.md5_hash
            ∧ (update_row r row).groups = py_join (Char.ofNat 44) r.groups
            ∧ (update_row r row).subdir = r.subdir
            ∧ (update_row r row).location = r.location
            ∧ (update_row r row).weight = r.weight
            ∧ (update_row r row).backup_url = r.backup_url) := by
  refine ⟨rfl, fun row => ?_⟩
  by_cases h : row.id = r.id_ <;>
    simp [update_row, h]

/-! ## Witnesses -/

/-- A concrete entity used to exercise the proved properties. -/
def witness_record : Record :=
  { id_ := 1, name := "Dragon Checkpoint", model_type := .checkpoint, download_url := ""
    url := "", download_path := "", download_filename := "", preview_url := ""
    description := "", positive_prompts := "", negative_prompts := "", sha256_hash := ""
    md5_hash := "", created_at := 0, groups := ["fantasy", "anime"], subdir := ""
    location := "/tmp/downloaded.safetensors", weight := 1, backup_url := "" }

/-- A concrete entity that has not been downloaded (empty location). -/
def witness_record_not_downloaded : Record :=
  { witness_record with id_ := 2, name := "Other", location := "" }

/-- The filesystem-existence predicate used by the witnesses: exactly one path
exists. -/
def witness_path_exists (p : String) : Bool := p = "/tmp/downloaded.safetensors"

/-- A migration-time state at stored version 5 with no backup file present. -/
def witness_mig_state : MigState :=
  { db := { version := 5, schema_log := [] }, backups := [] }

theorem C2_witness :
    get_record_by_id 1 tagged_db
      = map_row_to_record { r := sample_row 1 "A", tags := aggregated_tags 1 tagged_db } :=
  C2_reads_return_all_records_but_drop_tags_column.2.2 tagged_db 1 (sample_row 1 "A")
    (by decide)

theorem C3_witness :
    (∀ g ∈ witness_record.groups, ¬ (Char.ofNat 44) ∈ g.data)
    ∧ get_record_by_id (add_record witness_record empty_db).1
        (add_record witness_record empty_db).2
      = some { witness_record with id_ := (add_record witness_record empty_db).1 } :=
  ⟨by decide, C3_round_trip witness_record empty_db (by decide) (by decide) (by decide)⟩

theorem C5_witness :
    ¬ py_lower "x" ∈ get_all_tags
        (set_tags_for_record 1 [] (set_tags_for_record 1 ["x"] empty_db).1).1
    ∧ ∀ q ∈ (set_tags_for_record 1 [] (set_tags_for_record 1 ["x"] empty_db).1).1.tags,
        ∃ p ∈ (set_tags_for_record 1 [] (set_tags_for_record 1 ["x"] empty_db).1).1.tagSet,
          p.2 = q.1 :=
  C5_orphan_tag_gc empty_db 1 "x" (by decide) (by decide) (by decide)

theorem C7_witness :
    (run_migration 5 witness_mig_state).2 = none
    ∧ (run_migration 5 witness_mig_state).1.backups = [backup_path 7] :=
  C7_backup_retention 5 witness_mig_state (by decide) (by decide) rfl

theorem C8_witness :
    (run_migration_chain migration_map [1, 2] witness_mig_state).2 = none
    ∧ run_migration_chain migration_map ([1, 2] ++ 0 :: []) witness_mig_state
        = (backup_database 0 (run_migration_chain migration_map [1, 2] witness_mig_state).1,
           some ("Missing SQLite migration from " ++ toString 0 ++ " to "
             ++ toString DB_VERSION))
    ∧ (run_migration 0 witness_mig_state).2
        = some ("Missing SQLite migration from " ++ toString 0 ++ " to "
          ++ toString DB_VERSION) :=
  C8_missing_migration_fails_keeps_prefix migration_map [1, 2] 0 [] witness_mig_state rfl
    (by decide)

theorem C9_witness :
    query_post_filter witness_path_exists false true
        [witness_record, witness_record_not_downloaded]
      = [witness_record, witness_record_not_downloaded].filter
          (fun r => !(is_downloaded witness_path_exists r))
    ∧ (∀ r ∈ query_post_filter witness_path_exists false true
          [witness_record, witness_record_not_downloaded],
        witness_path_exists r.location = false)
    ∧ (∀ sd snd r, r ∈ query_post_filter witness_path_exists sd snd
          [witness_record, witness_record_not_downloaded] →
        (is_downloaded witness_path_exists r = true → sd = true)
        ∧ (is_downloaded witness_path_exists r = false → snd = true)) :=
  C9_download_state_post_filter witness_path_exists
    [witness_record, witness_record_not_downloaded] (by decide)

theorem C10_witness :
    (update_record witness_record tagged_db).records
        = tagged_db.records.map (update_row witness_record)
    ∧ (update_row witness_record (sample_row 1 "A")).created_at
        = (sample_row 1 "A").created_at :=
  ⟨(C10_update_never_writes_created_at witness_record tagged_db).1,
   ((C10_update_never_writes_created_at witness_record tagged_db).2 (sample_row 1 "A")).1⟩
